import Mathlib

/-!
Shallow embedding of `src/loom/client.py` (the Loom client wrapper).

Modelling conventions:
* Python `float` temperature is modelled as `ℚ`; the only operations the
  code performs on it are the exact comparisons `0.0 <= t <= 2.0` and
  rendering it into an error message, both of which are faithfully
  represented on rationals.
* The remote transport (`self.client.chat.completions.create`) is an
  oracle `Request → TransportOutcome`; the embedding records every request
  it issues, so "no network call" is `requests = []` and "exactly one
  call" is `requests.length = 1`.
* Python exceptions become the `LoomError` sum: `ValueError` (the spec's
  `InvalidArgument`), `APIConnectionError` (`ConnectionFailure`),
  `APIStatusError` (`ServerStatusError`), pydantic `ValidationError`
  (`ResponseValidationError`/`SchemaValidationError`), and the `IndexError`
  raised by `response.choices[0]` on an empty choices array.
* `print(...)` diagnostics become an ordered `log : List String`.
* A server field the wire protocol may omit is an `Option`; per pydantic
  semantics an *explicitly passed* `None` for a required `str` field fails
  model validation (the declared default applies only when the argument is
  omitted at the call site), which is how `LoomResponse` construction is
  modelled below.
-/

namespace Loom

/-- Mirror of the pydantic model `LoomResponse` in `client.py`:
`content : str`, `reasoning : Optional[str] = None`,
`token_usage : Dict[str, int]` (kept as an association list in insertion
order), `model_used : str`, `finish_reason : str = Field(default="unknown")`. -/
structure LoomResponse where
  content : String
  reasoning : Option String
  token_usage : List (String × Nat)
  model_used : String
  finish_reason : String
  deriving DecidableEq, Repr

/-- The exceptions the wrapper can raise, named after the Python exception
classes (`LoomError.valueError` is the spec's `InvalidArgument`,
`apiConnectionError` is `ConnectionFailure`, `apiStatusError` is
`ServerStatusError`, `validationError` is
`ResponseValidationError`/`SchemaValidationError`; `indexError` models
`response.choices[0]` on an empty list). -/
inductive LoomError where
  | valueError (msg : String)
  | apiConnectionError
  | apiStatusError (status_code : Nat)
  | validationError (info : String)
  | indexError
  deriving DecidableEq, Repr

/-- One entry of the `messages` array of a chat-completion request. -/
structure ChatMessage where
  role : String
  content : String
  deriving DecidableEq, Repr

/-- The wire request built by `self.client.chat.completions.create(...)`:
`max_tokens := none` encodes passing Python `None` (no explicit limit);
`enable_reasoning` is the `extra_body` extension flag (absent for
`generate_structured`); `response_format_json` is true when
`response_format={"type": "json_object"}` is sent. -/
structure Request where
  model : String
  messages : List ChatMessage
  temperature : ℚ
  max_tokens : Option Int
  enable_reasoning : Option Bool
  response_format_json : Bool
  deriving DecidableEq, Repr

/-- The `message` object inside a response choice: `content` may be omitted
or empty; `reasoning_content` is the dedicated (vLLM-specific) reasoning
field; `model_extra` is pydantic's overflow map of non-standard fields,
from which the code reads the key `"reasoning_content"`. -/
structure Message where
  content : Option String
  reasoning_content : Option String
  model_extra : List (String × String)
  deriving DecidableEq, Repr

/-- One element of the response's `choices` array. `finish_reason = none`
models a server that omits the field (the OpenAI client surfaces it as
`None`). -/
structure Choice where
  message : Message
  finish_reason : Option String
  deriving DecidableEq, Repr

/-- The server's usage report. `extra` holds any additional, non-standard
usage fields; the code never reads them. -/
structure Usage where
  prompt_tokens : Nat
  completion_tokens : Nat
  total_tokens : Nat
  extra : List (String × Nat)
  deriving DecidableEq, Repr

/-- A successful (HTTP 200) chat-completion response body. -/
structure ServerResponse where
  choices : List Choice
  usage : Usage
  model : String
  deriving DecidableEq, Repr

/-- Outcome of one transport invocation: connection refused
(`APIConnectionError`), non-success status (`APIStatusError` with code), or
a parsed success body. -/
inductive TransportOutcome where
  | connectionError
  | statusError (status_code : Nat)
  | success (resp : ServerResponse)
  deriving DecidableEq, Repr

/-- Client configuration (`self.client.base_url` and `self.model_name`);
immutable after construction, the wrapper holds no other state. -/
structure Client where
  base_url : String
  model_name : String
  deriving DecidableEq, Repr

/-- Result of running one wrapper call: the returned value or raised
exception, the diagnostic lines printed (in order), and the requests
issued to the transport (in order). -/
structure Outcome (α : Type) where
  result : Except LoomError α
  log : List String
  requests : List Request

/-- Python `str.strip()` with no argument: remove leading and trailing
whitespace. Modelled by structural recursion over the character list (so
that it evaluates inside the kernel); ASCII whitespace, which is what the
relevant prompts contain, is treated exactly as Python does. -/
def pyStrip (s : String) : String :=
  ⟨((s.data.dropWhile Char.isWhitespace).reverse.dropWhile
      Char.isWhitespace).reverse⟩

/-- Message of the `ValueError` raised for an empty `system_prompt`. -/
def emptySystemMsg : String := "Pre-condition failed: system_prompt cannot be empty."

/-- Message of the `ValueError` raised for an empty `user_prompt`. -/
def emptyUserMsg : String := "Pre-condition failed: user_prompt cannot be empty."

/-- Message of the `ValueError` raised for an out-of-range temperature;
the offending value is interpolated between the two literal parts, as in
the Python f-string. -/
def tempMsg (temperature : ℚ) : String :=
  "Pre-condition failed: temperature " ++ toString temperature ++
    " is out of range (0.0-2.0)."

/-- The request `generate` sends, translated line by line from
`client.chat.completions.create(model=..., messages=[system, user],
temperature=..., max_tokens=max_tokens if max_tokens > 0 else None,
extra_body={"enable_reasoning": enable_reasoning})`. -/
def generateRequest (c : Client) (system_prompt user_prompt : String)
    (temperature : ℚ) (max_tokens : Int) (enable_reasoning : Bool) : Request :=
  { model := c.model_name
    messages := [⟨"system", system_prompt⟩, ⟨"user", user_prompt⟩]
    temperature := temperature
    max_tokens := if max_tokens > 0 then some max_tokens else none
    enable_reasoning := some enable_reasoning
    response_format_json := false }

/-- Reasoning extraction of `generate`: Python
`reasoning_content = getattr(message, "reasoning_content", None)` followed
by `if not reasoning_content: reasoning_content =
message.model_extra.get("reasoning_content")`. Python truthiness makes
both `None` and the empty string fall through to the overflow map. -/
def extractReasoning (m : Message) : Option String :=
  match m.reasoning_content with
  | some s => if s = "" then m.model_extra.lookup "reasoning_content" else some s
  | none => m.model_extra.lookup "reasoning_content"

/-- Construction `LoomResponse(content=..., reasoning=..., token_usage=...,
model_used=..., finish_reason=choice.finish_reason)`. Every argument is
passed explicitly, so when the server omitted `finish_reason` (surfaced as
`None`) pydantic rejects it — an explicit `None` is not a valid `str`, and
the declared default `"unknown"` applies only to an *omitted* argument.
All other arguments always validate (`reasoning` is `Optional`). -/
def mkLoomResponse (content : String) (reasoning : Option String)
    (token_usage : List (String × Nat)) (model_used : String)
    (finish_reason : Option String) : Except LoomError LoomResponse :=
  match finish_reason with
  | none => .error (.validationError "finish_reason: Input should be a valid string")
  | some fr => .ok ⟨content, reasoning, token_usage, model_used, fr⟩

/-- The `try` block of `generate`: the single transport invocation,
response processing, and the two `except` clauses that log and re-raise
`APIConnectionError` / `APIStatusError`. A pydantic `ValidationError` from
`LoomResponse(...)` is *not* caught by either clause, so it propagates
without a log line. -/
def generateTry (c : Client) (transport : Request → TransportOutcome)
    (system_prompt user_prompt : String) (temperature : ℚ)
    (max_tokens : Int) (enable_reasoning : Bool) : Outcome LoomResponse :=
  let req := generateRequest c system_prompt user_prompt temperature
    max_tokens enable_reasoning
  match transport req with
    | .connectionError =>
        { result := .error .apiConnectionError
          log := ["Loom Connection Error: Could not reach " ++ c.base_url]
          requests := [req] }
    | .statusError code =>
        { result := .error (.apiStatusError code)
          log := ["Loom Status Error: Server returned " ++ toString code]
          requests := [req] }
    | .success resp =>
        match resp.choices.head? with
        | none => { result := .error .indexError, log := [], requests := [req] }
        | some choice =>
            let usage_stats : List (String × Nat) :=
              [("prompt_tokens", resp.usage.prompt_tokens),
               ("completion_tokens", resp.usage.completion_tokens),
               ("total_tokens", resp.usage.total_tokens)]
            -- `content=choice.message.content or ""`: `None` (and the
            -- already-empty string) become `""`.
            { result := mkLoomResponse (choice.message.content.getD "")
                (extractReasoning choice.message) usage_stats resp.model
                choice.finish_reason
              log := [], requests := [req] }

/-- The `generate` method of `LoomClient`, translated statement by
statement: the three precondition checks (each raising before any
transport call), then the `try` block. -/
def generate (c : Client) (transport : Request → TransportOutcome)
    (system_prompt user_prompt : String) (temperature : ℚ)
    (max_tokens : Int) (enable_reasoning : Bool) : Outcome LoomResponse :=
  if pyStrip system_prompt = "" then
    { result := .error (.valueError emptySystemMsg), log := [], requests := [] }
  else if pyStrip user_prompt = "" then
    { result := .error (.valueError emptyUserMsg), log := [], requests := [] }
  else if ¬ (0 ≤ temperature ∧ temperature ≤ 2) then
    { result := .error (.valueError (tempMsg temperature)), log := [], requests := [] }
  else
    generateTry c transport system_prompt user_prompt temperature
      max_tokens enable_reasoning

/-- The caller-supplied pydantic model class of `generate_structured`, seen
through the two operations the code uses on it:
`json.dumps(response_model.model_json_schema(), indent=2)` (a fixed string
per class) and `response_model.model_validate_json` (parse a JSON string
and validate it against the schema, producing an instance or a
`ValidationError`). -/
structure ResponseModel (α : Type) where
  schema_str : String
  model_validate_json : String → Except String α

/-- The schema-augmented system prompt `generate_structured` builds
(f-string at the top of the method, reproduced verbatim). -/
def guidedSystemPrompt (system_prompt schema_str : String) : String :=
  system_prompt ++ "\n\n" ++
    "You must respond with valid JSON strictly following this schema:\n" ++
    "```json\n" ++ schema_str ++ "\n```\n" ++
    "Do not add any markdown formatting or chatter."

/-- The request `generate_structured` sends: guided system prompt, the
user prompt, the caller's temperature, no `max_tokens`, no `extra_body`,
and `response_format={"type": "json_object"}`. -/
def structuredRequest (c : Client) (system_prompt user_prompt schema_str : String)
    (temperature : ℚ) : Request :=
  { model := c.model_name
    messages := [⟨"system", guidedSystemPrompt system_prompt schema_str⟩,
                 ⟨"user", user_prompt⟩]
    temperature := temperature
    max_tokens := none
    enable_reasoning := none
    response_format_json := true }

/-- The `generate_structured` method of `LoomClient`, translated statement
by statement. Note what the source does *not* do: it performs no
precondition check on `system_prompt`, `user_prompt` or `temperature`
before calling the transport. Its `except` clauses catch `ValidationError`
and `APIStatusError` (logging then re-raising both) but not
`APIConnectionError`, which propagates without a log line.
`content = response.choices[0].message.content or "{}"` turns an omitted
or empty content into the empty JSON object text, which is then passed to
`response_model.model_validate_json`. -/
def generate_structured {α : Type} (c : Client)
    (transport : Request → TransportOutcome)
    (system_prompt user_prompt : String) (response_model : ResponseModel α)
    (temperature : ℚ) : Outcome α :=
  let req := structuredRequest c system_prompt user_prompt
    response_model.schema_str temperature
  match transport req with
  | .connectionError =>
      { result := .error .apiConnectionError, log := [], requests := [req] }
  | .statusError code =>
      { result := .error (.apiStatusError code)
        log := ["Loom Status Error: " ++ toString code]
        requests := [req] }
  | .success resp =>
      match resp.choices.head? with
      | none => { result := .error .indexError, log := [], requests := [req] }
      | some choice =>
          let content := match choice.message.content with
            | none => "{}"
            | some s => if s = "" then "{}" else s
          match response_model.model_validate_json content with
          | .ok instance_ =>
              { result := .ok instance_, log := [], requests := [req] }
          | .error _ =>
              { result := .error (.validationError content)
                log := ["Loom Validation Error: Model output did not match schema.\nOutput: "
                  ++ content]
                requests := [req] }

/-! Helper lemmas shared by the claim theorems. -/

/-- When all three preconditions hold, `generate` runs its `try` block. -/
theorem generate_of_preconditions (c : Client)
    (transport : Request → TransportOutcome)
    (system_prompt user_prompt : String) (temperature : ℚ)
    (max_tokens : Int) (enable_reasoning : Bool)
    (hs : pyStrip system_prompt ≠ "") (hu : pyStrip user_prompt ≠ "")
    (ht : 0 ≤ temperature ∧ temperature ≤ 2) :
    generate c transport system_prompt user_prompt temperature max_tokens
        enable_reasoning =
      generateTry c transport system_prompt user_prompt temperature
        max_tokens enable_reasoning := by
  simp [generate, hs, hu, ht.1, ht.2]

/-- The `try` block issues exactly one transport request, in every branch. -/
theorem generateTry_requests (c : Client)
    (transport : Request → TransportOutcome)
    (system_prompt user_prompt : String) (temperature : ℚ)
    (max_tokens : Int) (enable_reasoning : Bool) :
    (generateTry c transport system_prompt user_prompt temperature
        max_tokens enable_reasoning).requests =
      [generateRequest c system_prompt user_prompt temperature max_tokens
        enable_reasoning] := by
  unfold generateTry
  dsimp only
  split
  · rfl
  · rfl
  · split
    · rfl
    · rfl

/-- The `try` block never raises `ValueError`: every branch produces either
a value or one of `APIConnectionError`, `APIStatusError`,
`ValidationError`, `IndexError`. -/
theorem generateTry_result_ne_valueError (c : Client)
    (transport : Request → TransportOutcome)
    (system_prompt user_prompt : String) (temperature : ℚ)
    (max_tokens : Int) (enable_reasoning : Bool) (msg : String) :
    (generateTry c transport system_prompt user_prompt temperature
        max_tokens enable_reasoning).result ≠ .error (.valueError msg) := by
  unfold generateTry
  dsimp only
  split
  · simp
  · simp
  · split
    · simp
    · dsimp only
      unfold mkLoomResponse
      split
      · simp
      · simp

/-- Reduction of the `try` block on a successful response whose choices
array is non-empty. -/
theorem generateTry_success_eq (c : Client)
    (transport : Request → TransportOutcome)
    (system_prompt user_prompt : String) (temperature : ℚ)
    (max_tokens : Int) (enable_reasoning : Bool)
    (resp : ServerResponse) (choice : Choice) (rest : List Choice)
    (htrans : transport (generateRequest c system_prompt user_prompt
        temperature max_tokens enable_reasoning) = .success resp)
    (hchoices : resp.choices = choice :: rest) :
    generateTry c transport system_prompt user_prompt temperature
        max_tokens enable_reasoning =
      { result := mkLoomResponse (choice.message.content.getD "")
          (extractReasoning choice.message)
          [("prompt_tokens", resp.usage.prompt_tokens),
           ("completion_tokens", resp.usage.completion_tokens),
           ("total_tokens", resp.usage.total_tokens)]
          resp.model choice.finish_reason
        log := []
        requests := [generateRequest c system_prompt user_prompt temperature
          max_tokens enable_reasoning] } := by
  unfold generateTry
  dsimp only
  simp only [htrans, hchoices, List.head?_cons]

/-! Claim C1. -/

/-- C1: if `system_prompt` or `user_prompt` is empty after trimming
whitespace, `generate` raises `ValueError` (the spec's `InvalidArgument`)
with a message naming the offending field, and the transport is never
invoked — no request is issued, and the client (which holds no mutable
state) is unchanged. -/
theorem generate_empty_prompt_invalidArgument
    (c : Client) (transport : Request → TransportOutcome)
    (system_prompt user_prompt : String) (temperature : ℚ)
    (max_tokens : Int) (enable_reasoning : Bool)
    (h : pyStrip system_prompt = "" ∨ pyStrip user_prompt = "") :
    (generate c transport system_prompt user_prompt temperature max_tokens
        enable_reasoning).result =
      .error (.valueError (if pyStrip system_prompt = "" then emptySystemMsg
        else emptyUserMsg)) ∧
    (generate c transport system_prompt user_prompt temperature max_tokens
        enable_reasoning).requests = [] ∧
    ∃ pre post : String,
      (if pyStrip system_prompt = "" then emptySystemMsg else emptyUserMsg) =
        pre ++ (if pyStrip system_prompt = "" then "system_prompt"
          else "user_prompt") ++ post := by
  by_cases hs : pyStrip system_prompt = ""
  · refine ⟨?_, ?_, "Pre-condition failed: ", " cannot be empty.", ?_⟩
    · simp [generate, hs]
    · simp [generate, hs]
    · rw [if_pos hs, if_pos hs]; exact rfl
  · rcases h with h | hu
    · exact absurd h hs
    · refine ⟨?_, ?_, "Pre-condition failed: ", " cannot be empty.", ?_⟩
      · simp [generate, hs, hu]
      · simp [generate, hs, hu]
      · rw [if_neg hs, if_neg hs]; exact rfl

/-- Witness for C1 at `system_prompt = ""`, `user_prompt = "hi"`. -/
theorem generate_empty_prompt_invalidArgument_witness :
    (pyStrip "" = "" ∨ pyStrip "hi" = "") ∧
    (generate ⟨"http://u","m"⟩ (fun _ => .connectionError) "" "hi" 1 (-1)
        true).result = .error (.valueError emptySystemMsg) ∧
    (generate ⟨"http://u","m"⟩ (fun _ => .connectionError) "" "hi" 1 (-1)
        true).requests = [] := by
  have h := generate_empty_prompt_invalidArgument ⟨"http://u","m"⟩
    (fun _ => .connectionError) "" "hi" 1 (-1) true (Or.inl rfl)
  exact ⟨Or.inl rfl, h.1, h.2.1⟩

/-! Claim C5. -/

/-- C5: a temperature outside the closed interval `[0, 2]` makes
`generate` raise `ValueError` whose message contains the offending value,
before any transport request; a temperature inside the interval (endpoints
included) never produces a precondition (`ValueError`) failure. -/
theorem generate_temperature_range_check
    (c : Client) (transport : Request → TransportOutcome)
    (system_prompt user_prompt : String) (temperature : ℚ)
    (max_tokens : Int) (enable_reasoning : Bool)
    (hs : pyStrip system_prompt ≠ "") (hu : pyStrip user_prompt ≠ "") :
    (¬ (0 ≤ temperature ∧ temperature ≤ 2) →
      (generate c transport system_prompt user_prompt temperature max_tokens
          enable_reasoning).result =
        .error (.valueError (tempMsg temperature)) ∧
      (generate c transport system_prompt user_prompt temperature max_tokens
          enable_reasoning).requests = [] ∧
      ∃ pre post : String,
        tempMsg temperature = pre ++ toString temperature ++ post) ∧
    ((0 ≤ temperature ∧ temperature ≤ 2) →
      ∀ msg, (generate c transport system_prompt user_prompt temperature
        max_tokens enable_reasoning).result ≠ .error (.valueError msg)) := by
  constructor
  · intro ht
    refine ⟨?_, ?_, "Pre-condition failed: temperature ",
      " is out of range (0.0-2.0).", rfl⟩
    · simp [generate, hs, hu, ht]
    · simp [generate, hs, hu, ht]
  · intro ht msg
    rw [generate_of_preconditions c transport system_prompt user_prompt
      temperature max_tokens enable_reasoning hs hu ht]
    exact generateTry_result_ne_valueError c transport system_prompt
      user_prompt temperature max_tokens enable_reasoning msg

/-- Witness for C5 at the out-of-range temperature 3 and the in-range
temperature 1. -/
theorem generate_temperature_range_check_witness :
    pyStrip "sys" ≠ "" ∧ pyStrip "usr" ≠ "" ∧
    ¬ ((0:ℚ) ≤ 3 ∧ (3:ℚ) ≤ 2) ∧
    (generate ⟨"http://u","m"⟩ (fun _ => .connectionError) "sys" "usr" 3 (-1)
        true).result = .error (.valueError (tempMsg 3)) ∧
    (generate ⟨"http://u","m"⟩ (fun _ => .connectionError) "sys" "usr" 3 (-1)
        true).requests = [] ∧
    ∀ msg, (generate ⟨"http://u","m"⟩ (fun _ => .connectionError) "sys" "usr"
      1 (-1) true).result ≠ .error (.valueError msg) := by
  have hout : ¬ ((0:ℚ) ≤ 3 ∧ (3:ℚ) ≤ 2) := by norm_num
  have hin : (0:ℚ) ≤ 1 ∧ (1:ℚ) ≤ 2 := by norm_num
  have h3 := generate_temperature_range_check ⟨"http://u","m"⟩
    (fun _ => .connectionError) "sys" "usr" 3 (-1) true
    (by decide) (by decide)
  have h1 := generate_temperature_range_check ⟨"http://u","m"⟩
    (fun _ => .connectionError) "sys" "usr" 1 (-1) true
    (by decide) (by decide)
  exact ⟨by decide, by decide, hout, (h3.1 hout).1, (h3.1 hout).2.1,
    h1.2 hin⟩

/-! Claim C6. -/

/-- C6: with the preconditions satisfied, `generate` issues exactly the
one request built by `generateRequest`, whose wire `max_tokens` is absent
(`None`) for every non-positive `max_tokens` argument (including the
default -1) and is exactly the given value for every positive argument. -/
theorem generate_max_tokens_translation
    (c : Client) (transport : Request → TransportOutcome)
    (system_prompt user_prompt : String) (temperature : ℚ)
    (max_tokens : Int) (enable_reasoning : Bool)
    (hs : pyStrip system_prompt ≠ "") (hu : pyStrip user_prompt ≠ "")
    (ht : 0 ≤ temperature ∧ temperature ≤ 2) :
    (generate c transport system_prompt user_prompt temperature max_tokens
        enable_reasoning).requests =
      [generateRequest c system_prompt user_prompt temperature max_tokens
        enable_reasoning] ∧
    (max_tokens ≤ 0 →
      (generateRequest c system_prompt user_prompt temperature max_tokens
        enable_reasoning).max_tokens = none) ∧
    (0 < max_tokens →
      (generateRequest c system_prompt user_prompt temperature max_tokens
        enable_reasoning).max_tokens = some max_tokens) := by
  refine ⟨?_, ?_, ?_⟩
  · rw [generate_of_preconditions c transport system_prompt user_prompt
      temperature max_tokens enable_reasoning hs hu ht]
    exact generateTry_requests c transport system_prompt user_prompt
      temperature max_tokens enable_reasoning
  · intro h
    show (if max_tokens > 0 then some max_tokens else none) = none
    rw [if_neg (by omega : ¬ max_tokens > 0)]
  · intro h
    show (if max_tokens > 0 then some max_tokens else none) = some max_tokens
    rw [if_pos h]

/-- Witness for C6 at `max_tokens = -1` (the default) and
`max_tokens = 5`. -/
theorem generate_max_tokens_translation_witness :
    pyStrip "sys" ≠ "" ∧ pyStrip "usr" ≠ "" ∧
    ((0:ℚ) ≤ 1 ∧ (1:ℚ) ≤ 2) ∧
    (generate ⟨"http://u","m"⟩ (fun _ => .connectionError) "sys" "usr" 1 (-1)
        true).requests =
      [generateRequest ⟨"http://u","m"⟩ "sys" "usr" 1 (-1) true] ∧
    (generateRequest ⟨"http://u","m"⟩ "sys" "usr" 1 (-1) true).max_tokens
      = none ∧
    (generateRequest ⟨"http://u","m"⟩ "sys" "usr" 1 5 true).max_tokens
      = some 5 := by
  have hin : (0:ℚ) ≤ 1 ∧ (1:ℚ) ≤ 2 := by norm_num
  have h₁ := generate_max_tokens_translation ⟨"http://u","m"⟩
    (fun _ => .connectionError) "sys" "usr" 1 (-1) true
    (by decide) (by decide) hin
  have h₂ := generate_max_tokens_translation ⟨"http://u","m"⟩
    (fun _ => .connectionError) "sys" "usr" 1 5 true
    (by decide) (by decide) hin
  exact ⟨by decide, by decide, hin, h₁.1, h₁.2.1 (by omega),
    h₂.2.2 (by omega)⟩

/-! Claim C3. -/

/-- A well-formed success response whose only choice omits
`finish_reason`, making `LoomResponse` validation fail. -/
def noFinishResp : ServerResponse :=
  ⟨[⟨⟨some "ok", none, []⟩, none⟩], ⟨3, 1, 4, []⟩, "gpt-oss-120b"⟩

/-- C3 counterexample: a response-validation failure of `generate` is
re-raised with *no* diagnostic log line — `generate` has `except` clauses
only for `APIConnectionError` and `APIStatusError`, not for
`ValidationError` — refuting the claim that every failure kind is logged
before being re-raised. -/
theorem generate_validation_failure_not_logged :
    (generate ⟨"http://lenny","gpt-oss-120b"⟩ (fun _ => .success noFinishResp)
        "You are helpful." "Hello." 1 (-1) true).result =
      .error (.validationError "finish_reason: Input should be a valid string") ∧
    (generate ⟨"http://lenny","gpt-oss-120b"⟩ (fun _ => .success noFinishResp)
        "You are helpful." "Hello." 1 (-1) true).log = [] :=
  ⟨rfl, rfl⟩

/-- C3 (amended): with the preconditions satisfied, `generate` calls the
transport exactly once and performs no retry; a connection failure and a
non-success status are each logged with one diagnostic line and re-raised
unchanged in kind, while a response-validation failure is re-raised
unchanged in kind but without a diagnostic log line. -/
theorem generate_failure_propagation
    (c : Client) (transport : Request → TransportOutcome)
    (system_prompt user_prompt : String) (temperature : ℚ)
    (max_tokens : Int) (enable_reasoning : Bool)
    (hs : pyStrip system_prompt ≠ "") (hu : pyStrip user_prompt ≠ "")
    (ht : 0 ≤ temperature ∧ temperature ≤ 2) :
    (generate c transport system_prompt user_prompt temperature max_tokens
        enable_reasoning).requests.length = 1 ∧
    (transport (generateRequest c system_prompt user_prompt temperature
        max_tokens enable_reasoning) = .connectionError →
      (generate c transport system_prompt user_prompt temperature max_tokens
          enable_reasoning).result = .error .apiConnectionError ∧
      (generate c transport system_prompt user_prompt temperature max_tokens
          enable_reasoning).log =
        ["Loom Connection Error: Could not reach " ++ c.base_url]) ∧
    (∀ code, transport (generateRequest c system_prompt user_prompt
        temperature max_tokens enable_reasoning) = .statusError code →
      (generate c transport system_prompt user_prompt temperature max_tokens
          enable_reasoning).result = .error (.apiStatusError code) ∧
      (generate c transport system_prompt user_prompt temperature max_tokens
          enable_reasoning).log =
        ["Loom Status Error: Server returned " ++ toString code]) ∧
    (∀ resp choice rest, transport (generateRequest c system_prompt
        user_prompt temperature max_tokens enable_reasoning) = .success resp →
      resp.choices = choice :: rest → choice.finish_reason = none →
      (generate c transport system_prompt user_prompt temperature max_tokens
          enable_reasoning).result =
        .error (.validationError
          "finish_reason: Input should be a valid string") ∧
      (generate c transport system_prompt user_prompt temperature max_tokens
          enable_reasoning).log = []) := by
  rw [generate_of_preconditions c transport system_prompt user_prompt
    temperature max_tokens enable_reasoning hs hu ht]
  refine ⟨?_, ?_, ?_, ?_⟩
  · rw [generateTry_requests]
    rfl
  · intro h
    unfold generateTry
    dsimp only
    rw [h]
    exact ⟨rfl, rfl⟩
  · intro code h
    unfold generateTry
    dsimp only
    rw [h]
    exact ⟨rfl, rfl⟩
  · intro resp choice rest h hc hf
    rw [generateTry_success_eq c transport system_prompt user_prompt
      temperature max_tokens enable_reasoning resp choice rest h hc]
    refine ⟨?_, rfl⟩
    show mkLoomResponse _ _ _ _ choice.finish_reason = _
    rw [hf]
    exact rfl

/-- Witness for C3 (amended) at a server returning HTTP status 503. -/
theorem generate_failure_propagation_witness :
    pyStrip "sys" ≠ "" ∧ pyStrip "usr" ≠ "" ∧
    ((0:ℚ) ≤ 1 ∧ (1:ℚ) ≤ 2) ∧
    (generate ⟨"http://u","m"⟩ (fun _ => .statusError 503) "sys" "usr" 1 (-1)
        true).requests.length = 1 ∧
    (generate ⟨"http://u","m"⟩ (fun _ => .statusError 503) "sys" "usr" 1 (-1)
        true).result = .error (.apiStatusError 503) ∧
    (generate ⟨"http://u","m"⟩ (fun _ => .statusError 503) "sys" "usr" 1 (-1)
        true).log = ["Loom Status Error: Server returned " ++ toString 503] := by
  have hin : (0:ℚ) ≤ 1 ∧ (1:ℚ) ≤ 2 := by norm_num
  have h := generate_failure_propagation ⟨"http://u","m"⟩
    (fun _ => .statusError 503) "sys" "usr" 1 (-1) true
    (by decide) (by decide) hin
  exact ⟨by decide, by decide, hin, h.1, (h.2.2.1 503 rfl).1,
    (h.2.2.1 503 rfl).2⟩

/-! Claim C4. -/

/-- The failing input for C4: a well-formed success response in which the
server omits `finish_reason` (`choices[0].finish_reason` is `None`). -/
def omittedFinishResp : ServerResponse :=
  ⟨[⟨⟨some "Threadrippers are powerful.", none, []⟩, none⟩],
    ⟨10, 5, 15, []⟩, "test-model"⟩

/-- C4 (code bug): when the server omits the finish reason, `generate`
does not return a `LoomResponse` with `finish_reason = "unknown"`; it
passes the omitted value (`None`) to `LoomResponse` explicitly, whose
validation rejects it, so the call raises `ValidationError` instead. The
field default `"unknown"` declared in `LoomResponse` is unreachable from
`generate`. -/
theorem generate_omitted_finish_reason_raises :
    (generate ⟨"http://u","test-model"⟩ (fun _ => .success omittedFinishResp)
        "System" "User" 1 (-1) true).result =
      .error (.validationError
        "finish_reason: Input should be a valid string") :=
  rfl

/-! Claim C7. -/

/-- C7: on a successful response that passes result validation, `generate`
returns a result whose reasoning is the text of the dedicated
`reasoning_content` field when that field holds text, else the
`"reasoning_content"` entry of the `model_extra` overflow map; when both
locations are absent the reasoning is absent and the call still
succeeds. -/
theorem generate_reasoning_capture
    (c : Client) (transport : Request → TransportOutcome)
    (system_prompt user_prompt : String) (temperature : ℚ)
    (max_tokens : Int) (enable_reasoning : Bool)
    (resp : ServerResponse) (choice : Choice) (rest : List Choice)
    (fr : String)
    (hs : pyStrip system_prompt ≠ "") (hu : pyStrip user_prompt ≠ "")
    (ht : 0 ≤ temperature ∧ temperature ≤ 2)
    (htrans : transport (generateRequest c system_prompt user_prompt
        temperature max_tokens enable_reasoning) = .success resp)
    (hchoices : resp.choices = choice :: rest)
    (hfr : choice.finish_reason = some fr) :
    ∃ r : LoomResponse,
      (generate c transport system_prompt user_prompt temperature max_tokens
          enable_reasoning).result = .ok r ∧
      (∀ t, choice.message.reasoning_content = some t → t ≠ "" →
        r.reasoning = some t) ∧
      (choice.message.reasoning_content = none →
        ∀ t, choice.message.model_extra.lookup "reasoning_content" = some t →
          r.reasoning = some t) ∧
      ((choice.message.reasoning_content = none ∨
          choice.message.reasoning_content = some "") →
        choice.message.model_extra.lookup "reasoning_content" = none →
        r.reasoning = none) := by
  rw [generate_of_preconditions c transport system_prompt user_prompt
    temperature max_tokens enable_reasoning hs hu ht,
    generateTry_success_eq c transport system_prompt user_prompt temperature
      max_tokens enable_reasoning resp choice rest htrans hchoices]
  refine ⟨⟨choice.message.content.getD "", extractReasoning choice.message,
    [("prompt_tokens", resp.usage.prompt_tokens),
     ("completion_tokens", resp.usage.completion_tokens),
     ("total_tokens", resp.usage.total_tokens)], resp.model, fr⟩,
    ?_, ?_, ?_, ?_⟩
  · show mkLoomResponse _ _ _ _ choice.finish_reason = _
    rw [hfr]
    exact rfl
  · intro t hrc hne
    show extractReasoning choice.message = some t
    simp [extractReasoning, hrc, hne]
  · intro hrc t hl
    show extractReasoning choice.message = some t
    simp [extractReasoning, hrc, hl]
  · intro habs hl
    show extractReasoning choice.message = none
    rcases habs with h | h <;> simp [extractReasoning, h, hl]

/-- A response carrying reasoning text in the dedicated field. -/
def reasoningResp : ServerResponse :=
  ⟨[⟨⟨some "42", some "Thinking about the meaning of life...", []⟩,
      some "stop"⟩], ⟨10, 5, 15, []⟩, "gpt-oss-120b"⟩

/-- Witness for C7: the dedicated reasoning field is populated and the
returned result carries exactly that text. -/
theorem generate_reasoning_capture_witness :
    ∃ r : LoomResponse,
      (generate ⟨"http://u","m"⟩ (fun _ => .success reasoningResp) "System"
          "User" 1 (-1) true).result = .ok r ∧
      r.reasoning = some "Thinking about the meaning of life..." := by
  obtain ⟨r, hok, h1, -, -⟩ := generate_reasoning_capture ⟨"http://u","m"⟩
    (fun _ => .success reasoningResp) "System" "User" 1 (-1) true
    reasoningResp ⟨⟨some "42", some "Thinking about the meaning of life...",
      []⟩, some "stop"⟩ [] "stop" (by decide) (by decide) (by norm_num)
    rfl rfl rfl
  exact ⟨r, hok, h1 "Thinking about the meaning of life..." rfl (by decide)⟩

/-! Claim C8. -/

/-- C8: on a successful response that passes result validation, the token
usage of the returned result is exactly the three counters
`prompt_tokens`, `completion_tokens`, `total_tokens` copied from the
server usage report; the report may carry arbitrary additional usage
fields (`resp.usage.extra` is universally quantified here) and they never
appear in the result or cause a failure. -/
theorem generate_token_usage_copied
    (c : Client) (transport : Request → TransportOutcome)
    (system_prompt user_prompt : String) (temperature : ℚ)
    (max_tokens : Int) (enable_reasoning : Bool)
    (resp : ServerResponse) (choice : Choice) (rest : List Choice)
    (fr : String)
    (hs : pyStrip system_prompt ≠ "") (hu : pyStrip user_prompt ≠ "")
    (ht : 0 ≤ temperature ∧ temperature ≤ 2)
    (htrans : transport (generateRequest c system_prompt user_prompt
        temperature max_tokens enable_reasoning) = .success resp)
    (hchoices : resp.choices = choice :: rest)
    (hfr : choice.finish_reason = some fr) :
    ∃ r : LoomResponse,
      (generate c transport system_prompt user_prompt temperature max_tokens
          enable_reasoning).result = .ok r ∧
      r.token_usage =
        [("prompt_tokens", resp.usage.prompt_tokens),
         ("completion_tokens", resp.usage.completion_tokens),
         ("total_tokens", resp.usage.total_tokens)] := by
  rw [generate_of_preconditions c transport system_prompt user_prompt
    temperature max_tokens enable_reasoning hs hu ht,
    generateTry_success_eq c transport system_prompt user_prompt temperature
      max_tokens enable_reasoning resp choice rest htrans hchoices]
  refine ⟨⟨choice.message.content.getD "", extractReasoning choice.message,
    [("prompt_tokens", resp.usage.prompt_tokens),
     ("completion_tokens", resp.usage.completion_tokens),
     ("total_tokens", resp.usage.total_tokens)], resp.model, fr⟩, ?_, rfl⟩
  show mkLoomResponse _ _ _ _ choice.finish_reason = _
  rw [hfr]
  exact rfl

/-- A response whose usage report carries non-standard extra fields. -/
def extraUsageResp : ServerResponse :=
  ⟨[⟨⟨some "ok", none, []⟩, some "stop"⟩],
    ⟨10, 5, 15, [("prompt_tokens_details", 2), ("completion_tokens_details", 1)]⟩,
    "gpt-oss-120b"⟩

/-- Witness for C8: extra usage fields are present and the result copies
exactly the three standard counters. -/
theorem generate_token_usage_copied_witness :
    ∃ r : LoomResponse,
      (generate ⟨"http://u","m"⟩ (fun _ => .success extraUsageResp) "System"
          "User" 1 (-1) true).result = .ok r ∧
      r.token_usage = [("prompt_tokens", 10), ("completion_tokens", 5),
        ("total_tokens", 15)] := by
  obtain ⟨r, hok, hu⟩ := generate_token_usage_copied ⟨"http://u","m"⟩
    (fun _ => .success extraUsageResp) "System" "User" 1 (-1) true
    extraUsageResp ⟨⟨some "ok", none, []⟩, some "stop"⟩ [] "stop"
    (by decide) (by decide) (by norm_num) rfl rfl rfl
  exact ⟨r, hok, hu⟩

/-! Claim C9. -/

/-- C9: `generate` is deterministic in its inputs and the server reply:
two calls with identical arguments against transports that return
identical responses produce identical outcomes (the wrapper keeps no state
between calls and introduces no nondeterminism of its own). -/
theorem generate_deterministic
    (c : Client) (t₁ t₂ : Request → TransportOutcome)
    (system_prompt user_prompt : String) (temperature : ℚ)
    (max_tokens : Int) (enable_reasoning : Bool)
    (h : ∀ r, t₁ r = t₂ r) :
    generate c t₁ system_prompt user_prompt temperature max_tokens
        enable_reasoning =
      generate c t₂ system_prompt user_prompt temperature max_tokens
        enable_reasoning := by
  rw [show t₁ = t₂ from funext h]

/-- Witness for C9: two syntactically different but pointwise equal stub
transports give identical outcomes. -/
theorem generate_deterministic_witness :
    generate ⟨"http://u","m"⟩ (fun _ => .connectionError) "sys" "usr" 1 (-1)
        true =
      generate ⟨"http://u","m"⟩
        (fun r => match r with | _ => TransportOutcome.connectionError)
        "sys" "usr" 1 (-1) true :=
  generate_deterministic ⟨"http://u","m"⟩ (fun _ => .connectionError)
    (fun r => match r with | _ => TransportOutcome.connectionError)
    "sys" "usr" 1 (-1) true (fun _ => rfl)

/-! Claim C2. -/

/-- A concrete caller-supplied pydantic model class, seen through the two
operations the code uses: a fixed JSON-schema string and a validator; only
its verdict on the empty JSON object text is relevant here. -/
def demoModel : ResponseModel Unit :=
  { schema_str := "\x7b\"title\": \"Demo\", \"type\": \"object\"\x7d"
    model_validate_json := fun s =>
      if s = "\x7b\x7d" then .ok () else .error "invalid" }

/-- C2 (code bug): `generate_structured` performs no precondition check at
all. With an empty `system_prompt` it still issues the wire request — the
server's status error is what comes back — instead of failing with
`ValueError` before any network request, as both the claim and the
method's own docstring require. -/
theorem generate_structured_skips_precondition_checks :
    (generate_structured ⟨"http://u","m"⟩ (fun _ => .statusError 400) "" "hi"
        demoModel (1/10)).requests =
      [structuredRequest ⟨"http://u","m"⟩ "" "hi" demoModel.schema_str
        (1/10)] ∧
    (generate_structured ⟨"http://u","m"⟩ (fun _ => .statusError 400) "" "hi"
        demoModel (1/10)).result = .error (.apiStatusError 400) :=
  ⟨rfl, rfl⟩

/-! Claim C10. -/

/-- The verdict of `model_validate_json` on text `content`, mapped into
the wrapper's outcome: an instance passes through, a schema failure
becomes the validation error carrying the offending text. -/
def validationOutcome {α : Type} (v : Except String α) (content : String) :
    Except LoomError α :=
  match v with
  | .ok a => .ok a
  | .error _ => .error (.validationError content)

/-- C10: when the first choice's message content is omitted or empty,
`generate_structured` validates the empty JSON object text against the
caller's schema instead of failing with a JSON parse error: the call's
outcome is exactly the schema verdict on that text, so a schema that
accepts the empty object (all fields optional) yields its
default-populated instance and one that rejects it (required fields)
fails schema validation. -/
theorem generate_structured_empty_content_validates_empty_object
    {α : Type} (c : Client) (transport : Request → TransportOutcome)
    (system_prompt user_prompt : String) (M : ResponseModel α)
    (temperature : ℚ) (resp : ServerResponse) (choice : Choice)
    (rest : List Choice)
    (htrans : transport (structuredRequest c system_prompt user_prompt
        M.schema_str temperature) = .success resp)
    (hchoices : resp.choices = choice :: rest)
    (hcontent : choice.message.content = none ∨
      choice.message.content = some "") :
    (generate_structured c transport system_prompt user_prompt M
        temperature).result =
      validationOutcome (M.model_validate_json "\x7b\x7d") "\x7b\x7d" := by
  unfold generate_structured
  dsimp only
  simp only [htrans, hchoices, List.head?_cons]
  rcases hcontent with h | h <;> rw [h] <;>
    cases hv : M.model_validate_json "\x7b\x7d" <;>
      simp [validationOutcome, hv]

/-- Pydantic stand-in for the witness: a schema class all of whose fields
are optional accepts the empty JSON object and yields a default-populated
instance (here, the default value `none` of its one optional field). -/
def allOptionalModel : ResponseModel (Option String) :=
  { schema_str := "\x7b\"title\": \"Note\", \"type\": \"object\"\x7d"
    model_validate_json := fun s =>
      if s = "\x7b\x7d" then .ok none else .error "unmodelled" }

/-- Pydantic stand-in for the witness: a schema class with a required
field rejects the empty JSON object. -/
def requiredFieldModel : ResponseModel String :=
  { schema_str :=
      "\x7b\"title\": \"Name\", \"type\": \"object\", \"required\": [\"name\"]\x7d"
    model_validate_json := fun s =>
      if s = "\x7b\x7d" then .error "name: Field required"
      else .error "unmodelled" }

/-- A success response whose first choice has no message content. -/
def emptyContentResp : ServerResponse :=
  ⟨[⟨⟨none, none, []⟩, some "stop"⟩], ⟨1, 0, 1, []⟩, "m"⟩

/-- Witness for C10: with an omitted content, the all-optional schema
yields its default instance, the required-field schema a validation
failure carrying the empty-object text. -/
theorem generate_structured_empty_content_witness :
    (generate_structured ⟨"http://u","m"⟩ (fun _ => .success emptyContentResp)
        "sys" "usr" allOptionalModel (1/10)).result = .ok none ∧
    (generate_structured ⟨"http://u","m"⟩ (fun _ => .success emptyContentResp)
        "sys" "usr" requiredFieldModel (1/10)).result =
      .error (.validationError "\x7b\x7d") := by
  have h₁ := generate_structured_empty_content_validates_empty_object
    ⟨"http://u","m"⟩ (fun _ => .success emptyContentResp) "sys" "usr"
    allOptionalModel (1/10) emptyContentResp ⟨⟨none, none, []⟩, some "stop"⟩
    [] rfl rfl (Or.inl rfl)
  have h₂ := generate_structured_empty_content_validates_empty_object
    ⟨"http://u","m"⟩ (fun _ => .success emptyContentResp) "sys" "usr"
    requiredFieldModel (1/10) emptyContentResp ⟨⟨none, none, []⟩, some "stop"⟩
    [] rfl rfl (Or.inl rfl)
  exact ⟨h₁.trans rfl, h₂.trans rfl⟩

end Loom
